import Mathlib

/-!
Verification of the letsTrade dashboard's notification and aggregation logic.

Shallow embedding of:
- the profit-rate aggregate of `getPortfolioSummary`
  (src/dashboard/src/app/dashboard/page.tsx);
- the SQL trigger functions `notify_trade_changes` and `check_portfolio_alerts`
  (src/supabase/migrations/20260204010000_notifications.sql);
- the serverless handlers notify-trade and notify-alert with their
  `sendWebhookNotification` relay;
- the `useNotifications` hook state machine and the `RecentTrades`
  bounded list (src/dashboard/src/hooks/use-notifications.ts and the
  recent-trades component).

Machine numbers are modelled as `ℚ`; a JS or SQL value that can be null is an
`Option`. A JS division whose denominator is zero yields no finite number
(Infinity), so such a computation is embedded with result type `Option ℚ`
and `none` for the non-finite outcome.
-/

namespace LetsTrade

/-- Trade row, per the trades table schema and the TS `Trade` interface. -/
structure Trade where
  id : ℕ
  order_no : String
  stock_code : String
  stock_name : String
  order_type : String
  status : String
  quantity : ℕ
  price : ℚ
  executed_quantity : ℕ
  executed_price : Option ℚ
  created_at : String
  deriving Repr, DecidableEq

/-- Portfolio row, per the portfolio table schema and the TS `Position` interface. -/
structure Position where
  id : ℕ
  stock_code : String
  stock_name : String
  quantity : ℕ
  avg_price : ℚ
  current_price : ℚ
  market_value : ℚ
  profit_loss : ℚ
  profit_loss_rate : ℚ
  deriving Repr, DecidableEq

/-- Strategy row (the risk-bound columns relevant here): `max_loss_rate` and
`take_profit_rate` are nullable INTEGER columns of the strategies table. -/
structure Strategy where
  id : ℕ
  name : String
  max_loss_rate : Option ℤ
  take_profit_rate : Option ℤ
  is_active : Bool
  deriving Repr, DecidableEq

/-- A JSON scalar as it appears in a notification's `data` object. -/
inductive Jsonv where
  | jnum (q : ℚ)
  | jstr (s : String)
  | jnull
  deriving Repr, DecidableEq

/-- A row inserted into the notifications table. `message` is an `Option`
because SQL string concatenation with a NULL operand produces NULL.
`severity` defaults to "info" when the inserting statement omits it. -/
structure NotificationIns where
  type : String
  title : String
  message : Option String
  severity : String
  data : List (String × Jsonv)
  deriving Repr, DecidableEq

/-- Profit-rate line of `getPortfolioSummary`:
`totalValue > 0 ? (totalProfit / (totalValue - totalProfit)) * 100 : 0`.
When the guard holds but the denominator `totalValue - totalProfit` is zero,
the JS division produces Infinity, i.e. no finite rational: `none`. -/
def profitRate (totalValue totalProfit : ℚ) : Option ℚ :=
  if 0 < totalValue then
    if totalValue - totalProfit = 0 then none
    else some (totalProfit / (totalValue - totalProfit) * 100)
  else some 0

/-- Trigger operation (plpgsql TG_OP). -/
inductive TgOp where
  | insert
  | update
  | delete
  deriving Repr, DecidableEq

/-- Rows inserted into notifications by the `notify_trade_changes` trigger
function. The pg_notify side channel carries no row and is not modelled.
The first IF fires on an UPDATE whose status transitions into executed, the
second on an INSERT; its message concatenates `NEW.executed_price`, which is
nullable, so the whole message is NULL when that column is (Option.map). -/
def notify_trade_changes (op : TgOp) (old new : Trade) : List NotificationIns :=
  (if op = .update ∧ old.status ≠ "executed" ∧ new.status = "executed" then
    [{ type := "trade_executed"
     , title := if new.order_type = "buy" then "매수 체결" else "매도 체결"
     , message := new.executed_price.map (fun p =>
         new.stock_name ++ " "
           ++ (if new.order_type = "buy" then "매수" else "매도") ++ " "
           ++ toString new.executed_quantity ++ "주 @ ₩" ++ toString p)
     , severity := "info"
     , data := [("trade_id", .jnum (new.id : ℚ)),
                ("stock_code", .jstr new.stock_code),
                ("order_type", .jstr new.order_type)] }]
   else []) ++
  (if op = .insert then
    [{ type := "trade_new"
     , title := if new.order_type = "buy" then "매수 주문" else "매도 주문"
     , message := some
         (new.stock_name ++ " "
           ++ (if new.order_type = "buy" then "매수" else "매도") ++ " "
           ++ toString new.quantity ++ "주 @ ₩" ++ toString new.price)
     , severity := "info"
     , data := [("trade_id", .jnum (new.id : ℚ)),
                ("stock_code", .jstr new.stock_code),
                ("order_type", .jstr new.order_type)] }]
   else [])

/-- Event discriminator of the webhook payload sent to notify-trade. -/
inductive WebhookEvent where
  | INSERT
  | UPDATE
  | DELETE
  deriving Repr, DecidableEq

/-- Payload of the notify-trade handler (`WebhookPayload` in the source). -/
structure WebhookPayload where
  type : WebhookEvent
  record : Trade
  old_record : Option Trade
  deriving Repr, DecidableEq

/-- Row inserted by `sendTradeExecutedNotification`. The JS expression
`trade.executed_price || trade.price` falls back when `executed_price` is
null or 0 (both falsy). -/
def sendTradeExecutedIns (trade : Trade) : NotificationIns :=
  let action := if trade.order_type = "buy" then "매수" else "매도"
  let executedPrice := match trade.executed_price with
    | none => trade.price
    | some p => if p = 0 then trade.price else p
  { type := "trade_executed"
  , title := action ++ " 체결 완료"
  , message := some ("[체결] " ++ trade.stock_name ++ " " ++ action ++ " "
      ++ toString trade.executed_quantity ++ "주 @ ₩" ++ toString executedPrice)
  , severity := "info"
  , data := [("trade_id", .jnum (trade.id : ℚ)),
             ("stock_code", .jstr trade.stock_code)] }

/-- Row inserted by `sendNewTradeNotification`. -/
def sendNewTradeIns (trade : Trade) : NotificationIns :=
  let action := if trade.order_type = "buy" then "매수" else "매도"
  { type := "trade_new"
  , title := action ++ " 주문"
  , message := some ("[주문] " ++ trade.stock_name ++ " " ++ action ++ " "
      ++ toString trade.quantity ++ "주 @ ₩" ++ toString trade.price)
  , severity := "info"
  , data := [("trade_id", .jnum (trade.id : ℚ)),
             ("stock_code", .jstr trade.stock_code)] }

/-- Does the notify-trade handler treat the old record as not yet executed?
`payload.old_record?.status !== "executed"` is true when old_record is null. -/
def oldNotExecuted : Option Trade → Bool
  | none => true
  | some o => o.status != "executed"

/-- Notification rows inserted by one invocation of the notify-trade handler
on a given payload (the two `if` branches of its `serve` body). -/
def notifyTradeInserts (payload : WebhookPayload) : List NotificationIns :=
  (if payload.type = .UPDATE ∧ oldNotExecuted payload.old_record = true
      ∧ payload.record.status = "executed" then
    [sendTradeExecutedIns payload.record]
   else []) ++
  (if payload.type = .INSERT then [sendNewTradeIns payload.record] else [])

/-- Outcome of one outbound webhook relay attempt, as distinguished by the
control flow of `sendWebhookNotification` in both serverless handlers:
no NOTIFICATION_WEBHOOK_URL configured, a delivered (response.ok) fetch,
a non-OK HTTP response, or a thrown fetch error. -/
inductive RelayOutcome where
  | noUrl
  | delivered
  | httpError (status : ℕ)
  | fetchFailed
  deriving Repr, DecidableEq

/-- `sendWebhookNotification` (same control flow in notify-trade and
notify-alert): returns the console log lines it emits paired with its
result as seen by the caller. Every branch logs failures and returns
normally; no branch rethrows, so the result is always `Except.ok`. -/
def sendWebhookNotification : RelayOutcome → List String × Except String Unit
  | .noUrl =>
      (["No webhook URL configured, skipping external notification"], .ok ())
  | .delivered => ([], .ok ())
  | .httpError status =>
      (["Webhook notification failed: " ++ toString status], .ok ())
  | .fetchFailed => (["Error sending webhook notification"], .ok ())

/-- Observable outcome of one serverless handler invocation: the notification
rows inserted into the database and the HTTP response. -/
structure HandlerResult where
  inserted : List NotificationIns
  status : ℕ
  success : Bool
  deriving Repr, DecidableEq

/-- The notify-trade `serve` body on a parsed payload: inserts the rows, then
awaits the relay; if the relay threw, the catch would return 500 with the
rows already inserted, otherwise 200 with success. -/
def notifyTradeServe (payload : WebhookPayload) (relay : RelayOutcome) :
    HandlerResult :=
  let inserted := notifyTradeInserts payload
  match (sendWebhookNotification relay).2 with
  | .ok _ => { inserted := inserted, status := 200, success := true }
  | .error _ => { inserted := inserted, status := 500, success := false }

/-- Request body of the notify-alert handler. A missing `type` or `message`
is modelled as the empty string, matching the JS falsy check
`!alert.type || !alert.message` (undefined and "" are both falsy). -/
structure AlertRequest where
  type : String
  stock_code : Option String
  stock_name : Option String
  message : String
  severity : String
  data : List (String × Jsonv)
  deriving Repr, DecidableEq

/-- Title lookup table of `processAlert` with its "알림" default. -/
def alertTitle (t : String) : String :=
  if t = "stop_loss" then "손절선 도달"
  else if t = "take_profit" then "익절선 도달"
  else if t = "price_alert" then "가격 알림"
  else if t = "system_error" then "시스템 오류"
  else "알림"

/-- A JS optional string serialised into the notification's data object. -/
def jsonvOfOptStr : Option String → Jsonv
  | none => .jnull
  | some s => .jstr s

/-- Row inserted by `processAlert` (the spread `...alert.data` appended after
the stock fields). -/
def processAlertIns (alert : AlertRequest) : NotificationIns :=
  { type := alert.type
  , title := alertTitle alert.type
  , message := some alert.message
  , severity := alert.severity
  , data := [("stock_code", jsonvOfOptStr alert.stock_code),
             ("stock_name", jsonvOfOptStr alert.stock_name)] ++ alert.data }

/-- The notify-alert `serve` body on a parsed request: 400 on the falsy-field
check, otherwise insert the row (plus, for critical severity, the
email/SMS placeholders which only log), then await the relay and answer.
`sendUrgentNotification` performs no observable action and is not modelled
beyond that comment. -/
def notifyAlertServe (alert : AlertRequest) (relay : RelayOutcome) :
    HandlerResult :=
  if alert.type = "" ∨ alert.message = "" then
    { inserted := [], status := 400, success := false }
  else
    match (sendWebhookNotification relay).2 with
    | .ok _ => { inserted := [processAlertIns alert], status := 200, success := true }
    | .error _ => { inserted := [processAlertIns alert], status := 500, success := false }

/-- SQL ROUND(x, 2) on the nonnegative values it is applied to here
(half away from zero coincides with half up on nonnegative input). -/
def round2 (q : ℚ) : ℚ := (round (q * 100) : ℚ) / 100

/-- Stop-loss row inserted by `check_portfolio_alerts`. -/
def stopLossIns (new : Position) : NotificationIns :=
  { type := "stop_loss"
  , title := "손절선 도달 경고"
  , message := some (new.stock_name ++ " 손실률 "
      ++ toString (round2 |new.profit_loss_rate|) ++ "% - 손절 검토 필요")
  , severity := "critical"
  , data := [("portfolio_id", .jnum (new.id : ℚ)),
             ("stock_code", .jstr new.stock_code),
             ("profit_loss_rate", .jnum new.profit_loss_rate),
             ("current_price", .jnum new.current_price),
             ("avg_price", .jnum new.avg_price)] }

/-- Take-profit row inserted by `check_portfolio_alerts`. -/
def takeProfitIns (new : Position) : NotificationIns :=
  { type := "take_profit"
  , title := "익절선 도달"
  , message := some (new.stock_name ++ " 수익률 "
      ++ toString (round2 new.profit_loss_rate) ++ "% - 익절 검토")
  , severity := "info"
  , data := [("portfolio_id", .jnum (new.id : ℚ)),
             ("stock_code", .jstr new.stock_code),
             ("profit_loss_rate", .jnum new.profit_loss_rate),
             ("current_price", .jnum new.current_price),
             ("avg_price", .jnum new.avg_price)] }

/-- Body of the `check_portfolio_alerts` trigger function: the two IF blocks
with their hardcoded DECLARE constants loss_threshold := 5.0 and
profit_threshold := 10.0, reading only the NEW row. -/
def check_portfolio_alerts (new : Position) : List NotificationIns :=
  (if new.profit_loss_rate ≤ -5 then [stopLossIns new] else []) ++
  (if 10 ≤ new.profit_loss_rate then [takeProfitIns new] else [])

/-- Database context visible to a trigger at firing time; here, the
strategies table with its per-strategy configured risk bounds. The
`check_portfolio_alerts` body issues no query, so the context is an
explicit parameter the result can be shown not to depend on. -/
structure DbContext where
  strategies : List Strategy
  deriving Repr, DecidableEq

/-- The trigger `trigger_check_portfolio_alerts`: AFTER UPDATE ON portfolio,
WHEN (OLD.profit_loss_rate IS DISTINCT FROM NEW.profit_loss_rate). -/
def trigger_check_portfolio_alerts (db : DbContext) (old new : Position) :
    List NotificationIns :=
  if old.profit_loss_rate ≠ new.profit_loss_rate then check_portfolio_alerts new
  else []

/-- Notification row as held by the `useNotifications` hook (the TS
`Notification` interface). -/
structure Notification where
  id : ℕ
  type : String
  title : String
  message : String
  severity : String
  is_read : Bool
  read_at : Option String
  created_at : String
  deriving Repr, DecidableEq

/-- Count of held rows with is_read = false:
`data.filter((n) => !n.is_read).length`. -/
def countUnread (l : List Notification) : ℕ :=
  (l.filter (fun n => !n.is_read)).length

/-- Local state of one `useNotifications` instance. `unreadCount` is a JS
number that the code manipulates by +1 / Math.max(0, x - 1) / 0, embedded
as `ℤ` so that nonnegativity is a statement and not a typing artifact. -/
structure HookState where
  notifications : List Notification
  unreadCount : ℤ
  isLoading : Bool
  deriving Repr, DecidableEq

/-- useState initial values: `[]`, `0`, `true`. -/
def initialHookState : HookState :=
  { notifications := [], unreadCount := 0, isLoading := true }

/-- Successful `fetchNotifications`: the query returns at most 50 rows
newest-first; state is replaced and the unread count recomputed. -/
def fetchOk (rows : List Notification) (s : HookState) : HookState :=
  { notifications := rows
  , unreadCount := (countUnread rows : ℤ)
  , isLoading := false }

/-- Failed `fetchNotifications`: the catch only logs; finally clears the
loading flag. -/
def fetchFailedStep (s : HookState) : HookState := { s with isLoading := false }

/-- The `onInsert` realtime callback: prepend, truncate to 50, and increment
the unread count unconditionally. -/
def stepInsert (n : Notification) (s : HookState) : HookState :=
  { s with notifications := (n :: s.notifications).take 50
         , unreadCount := s.unreadCount + 1 }

/-- The `onUpdate` realtime callback: replace the row matching the new image's
id, and decrement (floored at zero) only on an is_read false-to-true
transition between the old and new images. -/
def stepUpdate (old new : Notification) (s : HookState) : HookState :=
  { s with
      notifications :=
        s.notifications.map (fun x => if x.id = new.id then new else x)
    , unreadCount :=
        if !old.is_read && new.is_read then max 0 (s.unreadCount - 1)
        else s.unreadCount }

/-- Row filter of a supabase update statement issued by the hook. -/
inductive RowFilter where
  | byId (id : ℕ)
  | byUnread
  deriving Repr, DecidableEq

/-- A write issued against the notifications table. -/
structure DbWrite where
  table : String
  set_is_read : Bool
  set_read_at : Option String
  filter : RowFilter
  deriving Repr, DecidableEq

/-- The write issued by `markAsRead(id)`:
`update({ is_read: true, read_at: t }).eq("id", id)`. -/
def markAsReadWrite (id : ℕ) (t : String) : DbWrite :=
  { table := "notifications"
  , set_is_read := true
  , set_read_at := some t
  , filter := .byId id }

/-- Local-state effect of `markAsRead(id)`: its body contains no setState
call (neither on success nor in its catch), so the state is unchanged. -/
def markAsReadLocal (id : ℕ) (s : HookState) : HookState := s

/-- The write issued by `markAllAsRead`:
`update({ is_read: true, read_at: t }).eq("is_read", false)`. -/
def markAllAsReadWrite (t : String) : DbWrite :=
  { table := "notifications"
  , set_is_read := true
  , set_read_at := some t
  , filter := .byUnread }

/-- Local-state effect of `markAllAsRead`: when the awaited update resolves
(ok = true) both setters run, mapping every held row to read with the
timestamp and zeroing the count; when it throws, the catch only logs and
the state is unchanged. -/
def markAllAsRead (ok : Bool) (t : String) (s : HookState) : HookState :=
  if ok then
    { s with
        notifications :=
          s.notifications.map (fun n => { n with is_read := true, read_at := some t })
      , unreadCount := 0 }
  else s

/-- One observable operation of the `useNotifications` hook. -/
inductive HookEvent where
  | fetched (rows : List Notification)
  | fetchError
  | inserted (n : Notification)
  | updated (old new : Notification)
  | markOne (id : ℕ)
  | markAll (ok : Bool) (t : String)
  deriving Repr, DecidableEq

/-- Step function of the hook over one operation. -/
def hookStep (s : HookState) (e : HookEvent) : HookState :=
  match e with
  | .fetched rows => fetchOk rows s
  | .fetchError => fetchFailedStep s
  | .inserted n => stepInsert n s
  | .updated old new => stepUpdate old new s
  | .markOne id => markAsReadLocal id s
  | .markAll ok t => markAllAsRead ok t s

/-- A run of the hook from its useState initial state. -/
def hookRun (es : List HookEvent) : HookState :=
  es.foldl hookStep initialHookState

/-- A sequence of insert events applied to a state. -/
def processInserts (ns : List Notification) (s : HookState) : HookState :=
  ns.foldl (fun st n => stepInsert n st) s

/-- The `onNewTrade` callback of the RecentTrades component:
`setTrades((prev) => [trade, ...prev].slice(0, 5))`. -/
def onNewTrade (t : Trade) (l : List Trade) : List Trade := (t :: l).take 5

/-- A sequence of insert events applied to the recent-trades list. -/
def processNewTrades (ts : List Trade) (l : List Trade) : List Trade :=
  ts.foldl (fun acc t => onNewTrade t acc) l

/-- Concrete pending buy order used in witnesses. -/
def exTrade : Trade :=
  { id := 1, order_no := "A1", stock_code := "005930", stock_name := "삼성전자"
  , order_type := "buy", status := "pending", quantity := 10, price := 70000
  , executed_quantity := 0, executed_price := none
  , created_at := "2026-02-04T09:00:00Z" }

/-- The same order after its fill. -/
def exTradeExecuted : Trade :=
  { exTrade with
      status := "executed", executed_quantity := 10,
      executed_price := some 70000 }

/-- Webhook payload delivering that pending-to-executed update. -/
def exUpdatePayload : WebhookPayload :=
  { type := .UPDATE, record := exTradeExecuted, old_record := some exTrade }

/-- Concrete unread notification row. -/
def exUnread : Notification :=
  { id := 1, type := "trade_new", title := "매수 주문", message := "m"
  , severity := "info", is_read := false, read_at := none
  , created_at := "2026-02-04T09:00:00Z" }

/-- Concrete already-read notification row. -/
def exRead : Notification :=
  { exUnread with id := 2, is_read := true, read_at := some "2026-02-04T09:05:00Z" }

/-- A consistent hook state holding one unread row. -/
def exState1 : HookState :=
  { notifications := [exUnread], unreadCount := 1, isLoading := false }

/-- The realtime echo image of `exUnread` after `markAsRead(1)`. -/
def exUnreadMarked : Notification :=
  { exUnread with is_read := true, read_at := some "2026-02-04T09:06:00Z" }

/-- The row `exUnread` as rewritten by a successful markAllAsRead at t0. -/
def exMarkedT0 : Notification :=
  { exUnread with is_read := true, read_at := some "t0" }

/-- Concrete valid alert request. -/
def exAlert : AlertRequest :=
  { type := "stop_loss", stock_code := some "005930"
  , stock_name := some "삼성전자", message := "손실률 7% 도달"
  , severity := "critical", data := [] }

/-- Concrete strategy rows for the trigger-independence witness. -/
def exStrategyA : Strategy :=
  { id := 1, name := "s1", max_loss_rate := some 3
  , take_profit_rate := some 20, is_active := true }

/-- A second strategy configuration differing in both risk bounds. -/
def exStrategyB : Strategy :=
  { id := 1, name := "s1", max_loss_rate := some 15
  , take_profit_rate := some 4, is_active := true }

/-- Concrete portfolio rows before and after a loss update. -/
def exPositionOld : Position :=
  { id := 7, stock_code := "005930", stock_name := "삼성전자", quantity := 10
  , avg_price := 70000, current_price := 70000, market_value := 700000
  , profit_loss := 0, profit_loss_rate := 0 }

/-- The same position after its rate dropped to -7%. -/
def exPositionNew : Position :=
  { exPositionOld with
      current_price := 65100, market_value := 651000,
      profit_loss := -49000, profit_loss_rate := -7 }

/-- Notifications of a given type among a list of inserted rows. -/
def countType (ty : String) (l : List NotificationIns) : ℕ :=
  (l.filter (fun n => n.type == ty)).length

/-- C1 counterexample: for totalValue = 100 and totalProfit = 100 the guard
`totalValue > 0` passes, the denominator totalValue - totalProfit is zero,
and the computation produces no finite value (JS Infinity) - in particular
not the claimed 0. -/
theorem C1_profitRate_counterexample :
    profitRate 100 100 = none ∧ profitRate 100 100 ≠ some 0 := by
  refine ⟨by norm_num [profitRate], by simp [profitRate]⟩

/-- C1 (amended): the profit-rate guard covers only totalValue ≤ 0, where the
result is 0; for positive totalValue with totalValue = totalProfit the
division is by zero and yields no finite result, and otherwise the rate is
totalProfit / (totalValue - totalProfit) × 100. -/
theorem C1_profitRate_guard (v p : ℚ) :
    (v ≤ 0 → profitRate v p = some 0)
    ∧ (0 < v → v - p = 0 → profitRate v p = none)
    ∧ (0 < v → v - p ≠ 0 → profitRate v p = some (p / (v - p) * 100)) := by
  refine ⟨fun h => ?_, fun h1 h2 => ?_, fun h1 h2 => ?_⟩
  · simp [profitRate, not_lt.mpr h]
  · simp [profitRate, h1, h2]
  · simp [profitRate, h1, h2]

/-- C1 witness: the three regimes of the guard at concrete inputs. -/
theorem C1_profitRate_guard_witness :
    profitRate 0 5 = some 0
    ∧ profitRate 100 100 = none
    ∧ profitRate 100 50 = some (50 / (100 - 50) * 100) :=
  ⟨(C1_profitRate_guard 0 5).1 (by norm_num),
   (C1_profitRate_guard 100 100).2.1 (by norm_num) (by norm_num),
   (C1_profitRate_guard 100 50).2.2 (by norm_num) (by norm_num)⟩

/-- C2 counterexample: for the concrete pending-to-executed update processed
by both trigger paths, the SQL trigger and the serverless handler each
insert a trade_executed row, so the combined paths produce two rows, not
exactly one. -/
theorem C2_combined_counterexample :
    countType "trade_executed"
        (notify_trade_changes .update exTrade exTradeExecuted
          ++ notifyTradeInserts exUpdatePayload) = 2
    ∧ countType "trade_executed"
        (notify_trade_changes .update exTrade exTradeExecuted
          ++ notifyTradeInserts exUpdatePayload) ≠ 1 := by
  constructor <;> decide

/-- C2 (amended): each trigger path separately inserts exactly one
trade_executed notification for a pending-to-executed trade update; the
paths are not deduplicated, so when both process the same update two rows
result. -/
theorem C2_one_per_path (old new : Trade)
    (h1 : old.status = "pending") (h2 : new.status = "executed") :
    countType "trade_executed" (notify_trade_changes .update old new) = 1
    ∧ countType "trade_executed"
        (notifyTradeInserts { type := .UPDATE, record := new, old_record := some old }) = 1
    ∧ countType "trade_executed"
        (notify_trade_changes .update old new
          ++ notifyTradeInserts { type := .UPDATE, record := new, old_record := some old }) = 2 := by
  have hne : old.status ≠ "executed" := by rw [h1]; decide
  have hb : oldNotExecuted (some old) = true := by
    simp [oldNotExecuted, h1]
  refine ⟨?_, ?_, ?_⟩ <;>
    simp [notify_trade_changes, notifyTradeInserts, countType, hne, h2, hb,
      sendTradeExecutedIns]

/-- C2 witness: the per-path counts at the concrete pending-to-executed
update. -/
theorem C2_one_per_path_witness :
    countType "trade_executed" (notify_trade_changes .update exTrade exTradeExecuted) = 1
    ∧ countType "trade_executed"
        (notifyTradeInserts { type := .UPDATE, record := exTradeExecuted, old_record := some exTrade }) = 1
    ∧ countType "trade_executed"
        (notify_trade_changes .update exTrade exTradeExecuted
          ++ notifyTradeInserts { type := .UPDATE, record := exTradeExecuted, old_record := some exTrade }) = 2 :=
  C2_one_per_path exTrade exTradeExecuted rfl rfl

/-- C4 counterexample: at a consistent state holding the single unread row
with id 1, markAsRead(1) leaves the local state byte-for-byte unchanged -
the held row is still unread and unreadCount is still 1 - so no optimistic
local update takes place. -/
theorem C4_markAsRead_counterexample :
    markAsReadLocal 1 exState1 = exState1
    ∧ (markAsReadLocal 1 exState1).unreadCount = 1
    ∧ countUnread (markAsReadLocal 1 exState1).notifications = 1 := by
  refine ⟨rfl, rfl, ?_⟩
  decide

/-- C4 (amended): markAsRead(id) issues the write setting is_read and the
read timestamp filtered to that id, but performs no optimistic update of
local state: the held list and unreadCount change only when the echoed
realtime update event is processed. -/
theorem C4_markAsRead_write_no_local_update (id : ℕ) (t : String) (s : HookState) :
    (markAsReadWrite id t).table = "notifications"
    ∧ (markAsReadWrite id t).set_is_read = true
    ∧ (markAsReadWrite id t).set_read_at = some t
    ∧ (markAsReadWrite id t).filter = .byId id
    ∧ markAsReadLocal id s = s :=
  ⟨rfl, rfl, rfl, rfl, rfl⟩

/-- Helper: over a run of insert events whose rows are all unread and which
keeps the held list within the 50-row window, the unread counter tracks
the unread rows held and the list grows by one per event. -/
lemma processInserts_tracks_unread (ns : List Notification) :
    ∀ s : HookState, (∀ n ∈ ns, n.is_read = false) →
      s.unreadCount = (countUnread s.notifications : ℤ) →
      s.notifications.length + ns.length ≤ 50 →
      (processInserts ns s).unreadCount
          = (countUnread (processInserts ns s).notifications : ℤ)
        ∧ (processInserts ns s).notifications.length
          = s.notifications.length + ns.length := by
  induction ns with
  | nil => intro s _ hinv _; exact ⟨hinv, rfl⟩
  | cons n ns ih =>
    intro s hrd hinv hlen
    have hn : n.is_read = false := hrd n (List.mem_cons_self n ns)
    have hfit : s.notifications.length + 1 ≤ 50 := by
      have := hlen; simp [List.length_cons] at this; omega
    have htake : (n :: s.notifications).take 50 = n :: s.notifications := by
      apply List.take_of_length_le
      simp [List.length_cons]; omega
    have hstep : (stepInsert n s).notifications = n :: s.notifications := by
      simp [stepInsert, htake]
    have hcount : countUnread (n :: s.notifications)
        = countUnread s.notifications + 1 := by
      simp [countUnread, List.filter_cons, hn]
    have hinv2 : (stepInsert n s).unreadCount
        = (countUnread (stepInsert n s).notifications : ℤ) := by
      simp [stepInsert, htake, hcount, hinv]
    have hlen2 : (stepInsert n s).notifications.length + ns.length ≤ 50 := by
      rw [hstep]
      simp [List.length_cons] at hlen ⊢
      omega
    have hrd2 : ∀ m ∈ ns, m.is_read = false :=
      fun m hm => hrd m (List.mem_cons_of_mem n hm)
    have hmain := ih (stepInsert n s) hrd2 hinv2 hlen2
    have hfold : processInserts (n :: ns) s = processInserts ns (stepInsert n s) := rfl
    refine ⟨by rw [hfold]; exact hmain.1, ?_⟩
    rw [hfold, hmain.2, hstep]
    simp [List.length_cons]
    omega

/-- C3 counterexample: the insert handler increments unconditionally and the
50-row truncation never adjusts the counter, so the claimed equality fails
both (a) after inserting an already-read row into the empty fetched state
(count 1, zero unread rows held) and (b) after inserting an unread row
into a full fetched window of 50 unread rows (count 51, 50 unread held). -/
theorem C3_unread_count_counterexample :
    ((stepInsert exRead (fetchOk [] initialHookState)).unreadCount
        ≠ (countUnread (stepInsert exRead (fetchOk [] initialHookState)).notifications : ℤ))
    ∧ ((processInserts [exUnread]
          (fetchOk (List.replicate 50 exUnread) initialHookState)).unreadCount
        ≠ (countUnread (processInserts [exUnread]
            (fetchOk (List.replicate 50 exUnread) initialHookState)).notifications : ℤ)) := by
  constructor <;> decide

/-- C3 (amended): starting from a fetched state, unreadCount equals the
number of is_read = false rows among the rows the hook holds provided every
inserted row is unread and the fetched rows plus the inserts fit in the
50-row retention window; outside those conditions the equality fails. -/
theorem C3_unread_count_tracks (rows ns : List Notification)
    (hrd : ∀ n ∈ ns, n.is_read = false)
    (hlen : rows.length + ns.length ≤ 50) :
    (processInserts ns (fetchOk rows initialHookState)).unreadCount
      = (countUnread (processInserts ns (fetchOk rows initialHookState)).notifications : ℤ) :=
  (processInserts_tracks_unread ns (fetchOk rows initialHookState) hrd rfl
    (by simpa [fetchOk] using hlen)).1

/-- C3 witness: one unread insert into the empty fetched state. -/
theorem C3_unread_count_tracks_witness :
    (processInserts [exUnread] (fetchOk [] initialHookState)).unreadCount
      = (countUnread (processInserts [exUnread]
          (fetchOk [] initialHookState)).notifications : ℤ) :=
  C3_unread_count_tracks [] [exUnread] (by decide) (by decide)

/-- C5 counterexample: the state reached by fetching the single read row with
id 1 (count 0) and then processing an update event that flips it back to
unread (the false-to-true guard does not fire, count stays 0) holds an
unread notification with id 1 - the claim's premise - yet markAsRead(1)
followed by the echoed false-to-true update for id 1 leaves unreadCount at
0: zero decrements, because Math.max floors 0 - 1, not the claimed exactly
one (which would give -1 here). -/
theorem C5_no_double_decrement_counterexample :
    exUnread ∈ (hookRun [.fetched [exUnreadMarked],
        .updated exUnreadMarked exUnread]).notifications
    ∧ exUnread.is_read = false
    ∧ (hookRun [.fetched [exUnreadMarked],
        .updated exUnreadMarked exUnread]).unreadCount = 0
    ∧ (stepUpdate exUnread exUnreadMarked
        (markAsReadLocal exUnread.id
          (hookRun [.fetched [exUnreadMarked],
            .updated exUnreadMarked exUnread]))).unreadCount
      = (hookRun [.fetched [exUnreadMarked],
          .updated exUnreadMarked exUnread]).unreadCount
    ∧ (stepUpdate exUnread exUnreadMarked
        (markAsReadLocal exUnread.id
          (hookRun [.fetched [exUnreadMarked],
            .updated exUnreadMarked exUnread]))).unreadCount
      ≠ (hookRun [.fetched [exUnreadMarked],
          .updated exUnreadMarked exUnread]).unreadCount - 1 := by
  refine ⟨?_, ?_, ?_, ?_, ?_⟩ <;> decide

/-- C5 (amended): from a consistent state - unreadCount equal to the number
of unread rows held, as in any freshly fetched state - holding an unread
row, markAsRead(id) followed by the echoed realtime update for the same id
(is_read false-to-true) decrements unreadCount exactly once in total -
markAsRead touches no local state and the event handler decrements once,
so duplicate delivery of the confirmation does not double-decrement. In an
inconsistent state the floor at zero can make the pair decrement zero
times instead, but never twice. -/
theorem C5_no_double_decrement (s : HookState) (old new : Notification)
    (hmem : old ∈ s.notifications) (hold : old.is_read = false)
    (hid : new.id = old.id) (hnew : new.is_read = true)
    (hinv : s.unreadCount = (countUnread s.notifications : ℤ)) :
    (stepUpdate old new (markAsReadLocal old.id s)).unreadCount
      = s.unreadCount - 1 := by
  have hfil : old ∈ s.notifications.filter (fun n => !n.is_read) :=
    List.mem_filter.mpr ⟨hmem, by simp [hold]⟩
  have hpos : 0 < countUnread s.notifications := by
    have := List.ne_nil_of_mem hfil
    unfold countUnread
    exact List.length_pos.mpr this
  have hone : 1 ≤ s.unreadCount := by
    rw [hinv]
    exact_mod_cast hpos
  simp [stepUpdate, markAsReadLocal, hold, hnew]
  omega

/-- C5 witness: the concrete one-unread-row state with the echoed
confirmation for id 1. -/
theorem C5_no_double_decrement_witness :
    (stepUpdate exUnread exUnreadMarked (markAsReadLocal exUnread.id exState1)).unreadCount
      = exState1.unreadCount - 1 :=
  C5_no_double_decrement exState1 exUnread exUnreadMarked (by decide) (by decide)
    (by decide) (by decide) (by decide)

/-- Helper: one RecentTrades insert event leaves at most 5 entries. -/
lemma onNewTrade_length_le (t : Trade) (l : List Trade) :
    (onNewTrade t l).length ≤ 5 := by
  simp [onNewTrade]

/-- Helper: a run of insert events preserves the 5-entry bound. -/
lemma processNewTrades_length_le (ts : List Trade) :
    ∀ l : List Trade, l.length ≤ 5 → (processNewTrades ts l).length ≤ 5 := by
  induction ts with
  | nil => intro l hl; exact hl
  | cons t ts ih =>
    intro l _
    exact ih (onNewTrade t l) (onNewTrade_length_le t l)

/-- C6 counterexample: with an initial list of 6 trades and no insert events
the RecentTrades list holds 6 entries, exceeding the cap of 5 - the cap is
only enforced by the insert callback, never against the initial list. -/
theorem C6_cap_counterexample :
    5 < (processNewTrades [] (List.replicate 6 exTrade)).length := by
  decide

/-- C6 (amended): the recent-trades list never exceeds 5 entries provided the
initial list has at most 5 (which the dashboard guarantees by fetching
with limit 5); for an arbitrary initial list the bound holds after at
least one insert event. -/
theorem C6_cap_preserved (init ts : List Trade) :
    (init.length ≤ 5 → (processNewTrades ts init).length ≤ 5)
    ∧ (ts ≠ [] → (processNewTrades ts init).length ≤ 5) := by
  refine ⟨fun h => processNewTrades_length_le ts init h, fun hne => ?_⟩
  match ts with
  | [] => exact absurd rfl hne
  | t :: ts =>
    show (processNewTrades ts (onNewTrade t init)).length ≤ 5
    exact processNewTrades_length_le ts (onNewTrade t init) (onNewTrade_length_le t init)

/-- C6 witness: both regimes at concrete inputs - a capped initial list, and
an oversized initial list followed by one insert. -/
theorem C6_cap_preserved_witness :
    (processNewTrades [exTrade] []).length ≤ 5
    ∧ (processNewTrades [exTrade] (List.replicate 6 exTrade)).length ≤ 5 :=
  ⟨(C6_cap_preserved [] [exTrade]).1 (by decide),
   (C6_cap_preserved (List.replicate 6 exTrade) [exTrade]).2 (by decide)⟩

/-- C7: when the portfolio update trigger fires (rate changed), its output is
the same under any two strategies-table contents - the thresholds are the
hardcoded constants, not the per-strategy configuration - and it contains
the critical stop_loss row exactly when the new rate is at most -5% and
the info take_profit row exactly when the new rate is at least +10%. -/
theorem C7_portfolio_alert_hardcoded (dbA dbB : DbContext) (old new : Position)
    (hchanged : old.profit_loss_rate ≠ new.profit_loss_rate) :
    trigger_check_portfolio_alerts dbA old new
        = trigger_check_portfolio_alerts dbB old new
    ∧ (stopLossIns new ∈ trigger_check_portfolio_alerts dbA old new
        ↔ new.profit_loss_rate ≤ -5)
    ∧ (takeProfitIns new ∈ trigger_check_portfolio_alerts dbA old new
        ↔ 10 ≤ new.profit_loss_rate)
    ∧ (stopLossIns new).type = "stop_loss"
    ∧ (stopLossIns new).severity = "critical"
    ∧ (takeProfitIns new).type = "take_profit"
    ∧ (takeProfitIns new).severity = "info" := by
  have hne : stopLossIns new ≠ takeProfitIns new := by
    simp [stopLossIns, takeProfitIns]
  refine ⟨rfl, ?_, ?_, rfl, rfl, rfl, rfl⟩ <;>
    by_cases h1 : new.profit_loss_rate ≤ -5 <;>
    by_cases h2 : 10 ≤ new.profit_loss_rate <;>
    simp [trigger_check_portfolio_alerts, check_portfolio_alerts, hchanged,
      h1, h2, hne, Ne.symm hne]

/-- C7 witness: the -7% update fires a stop-loss alert identically under two
strategies whose configured max_loss_rate and take_profit_rate differ. -/
theorem C7_portfolio_alert_hardcoded_witness :
    trigger_check_portfolio_alerts ⟨[exStrategyA]⟩ exPositionOld exPositionNew
        = trigger_check_portfolio_alerts ⟨[exStrategyB]⟩ exPositionOld exPositionNew
    ∧ (stopLossIns exPositionNew
          ∈ trigger_check_portfolio_alerts ⟨[exStrategyA]⟩ exPositionOld exPositionNew
        ↔ exPositionNew.profit_loss_rate ≤ -5)
    ∧ (takeProfitIns exPositionNew
          ∈ trigger_check_portfolio_alerts ⟨[exStrategyA]⟩ exPositionOld exPositionNew
        ↔ 10 ≤ exPositionNew.profit_loss_rate)
    ∧ (stopLossIns exPositionNew).type = "stop_loss"
    ∧ (stopLossIns exPositionNew).severity = "critical"
    ∧ (takeProfitIns exPositionNew).type = "take_profit"
    ∧ (takeProfitIns exPositionNew).severity = "info" :=
  C7_portfolio_alert_hardcoded ⟨[exStrategyA]⟩ ⟨[exStrategyB]⟩
    exPositionOld exPositionNew (by decide)

/-- C8: for every payload of the notify-trade and notify-alert handlers, the
handler result (rows inserted and HTTP response) is identical whatever the
outcome of the outbound webhook relay; the notify-trade response is always
200 success, the notify-alert response is 200 success whenever the request
passes its field check; and every non-delivered relay outcome is logged
while the relay call still returns normally (swallowed, never rethrown). -/
theorem C8_relay_failure_swallowed (o : RelayOutcome) (p : WebhookPayload)
    (a : AlertRequest) :
    notifyTradeServe p o = notifyTradeServe p .delivered
    ∧ notifyAlertServe a o = notifyAlertServe a .delivered
    ∧ (notifyTradeServe p o).status = 200
    ∧ (notifyTradeServe p o).success = true
    ∧ (¬(a.type = "" ∨ a.message = "") →
        (notifyAlertServe a o).status = 200 ∧ (notifyAlertServe a o).success = true)
    ∧ (sendWebhookNotification o).2 = .ok ()
    ∧ (o ≠ .delivered → (sendWebhookNotification o).1 ≠ []) := by
  cases o <;>
    refine ⟨rfl, rfl, rfl, rfl, fun h => ?_, rfl, fun h2 => ?_⟩ <;>
    simp_all [notifyAlertServe, sendWebhookNotification]

/-- C8 witness: a thrown fetch error on the concrete trade payload and alert
request. -/
theorem C8_relay_failure_swallowed_witness :
    notifyTradeServe exUpdatePayload .fetchFailed
        = notifyTradeServe exUpdatePayload .delivered
    ∧ notifyAlertServe exAlert .fetchFailed = notifyAlertServe exAlert .delivered
    ∧ (notifyTradeServe exUpdatePayload .fetchFailed).status = 200
    ∧ (notifyTradeServe exUpdatePayload .fetchFailed).success = true
    ∧ ((notifyAlertServe exAlert .fetchFailed).status = 200
        ∧ (notifyAlertServe exAlert .fetchFailed).success = true)
    ∧ (sendWebhookNotification .fetchFailed).2 = .ok ()
    ∧ (sendWebhookNotification .fetchFailed).1 ≠ [] := by
  have h := C8_relay_failure_swallowed .fetchFailed exUpdatePayload exAlert
  exact ⟨h.1, h.2.1, h.2.2.1, h.2.2.2.1, h.2.2.2.2.1 (by decide),
    h.2.2.2.2.2.1, h.2.2.2.2.2.2 (by decide)⟩

/-- Helper: every hook operation preserves nonnegativity of unreadCount. -/
lemma hookStep_unread_nonneg (s : HookState) (e : HookEvent)
    (h : 0 ≤ s.unreadCount) : 0 ≤ (hookStep s e).unreadCount := by
  cases e with
  | fetched rows =>
      simp [hookStep, fetchOk]
  | fetchError => simpa [hookStep, fetchFailedStep] using h
  | inserted n =>
      simp only [hookStep, stepInsert]
      omega
  | updated old new =>
      simp only [hookStep, stepUpdate]
      split
      · exact le_max_left _ _
      · exact h
  | markOne id => simpa [hookStep, markAsReadLocal] using h
  | markAll ok t =>
      simp only [hookStep, markAllAsRead]
      split
      · simp
      · exact h

/-- Helper: nonnegativity is preserved along any run of hook operations. -/
lemma hookRun_unread_nonneg_from (es : List HookEvent) :
    ∀ s : HookState, 0 ≤ s.unreadCount → 0 ≤ (es.foldl hookStep s).unreadCount := by
  induction es with
  | nil => intro s h; exact h
  | cons e es ih =>
      intro s h
      exact ih (hookStep s e) (hookStep_unread_nonneg s e h)

/-- C9: unreadCount is never negative - every single hook operation (fetch
success or failure, insert event, update event, markAsRead, markAllAsRead
success or failure) preserves 0 ≤ unreadCount, and every run from the
initial state (count 0, with any fetched state arising as a prefix of such
a run) ends with 0 ≤ unreadCount. -/
theorem C9_unread_count_nonneg :
    (∀ (s : HookState) (e : HookEvent),
        0 ≤ s.unreadCount → 0 ≤ (hookStep s e).unreadCount)
    ∧ ∀ es : List HookEvent, 0 ≤ (hookRun es).unreadCount :=
  ⟨fun s e h => hookStep_unread_nonneg s e h,
   fun es => hookRun_unread_nonneg_from es initialHookState (by decide)⟩

/-- C9 witness: one concrete step and one concrete run. -/
theorem C9_unread_count_nonneg_witness :
    0 ≤ (hookStep exState1 (.inserted exUnread)).unreadCount
    ∧ 0 ≤ (hookRun [.fetched [exUnread, exRead], .markOne 1,
        .updated exUnread exUnreadMarked, .markAll true "t0"]).unreadCount :=
  ⟨C9_unread_count_nonneg.1 exState1 (.inserted exUnread) (by decide),
   C9_unread_count_nonneg.2 [.fetched [exUnread, exRead], .markOne 1,
     .updated exUnread exUnreadMarked, .markAll true "t0"]⟩

/-- C10: markAllAsRead is atomic with respect to local state - when the
database update throws, the held list and unreadCount are unchanged (the
catch only logs); when it succeeds, every held row is rewritten to
is_read = true with the read timestamp set and unreadCount is 0. -/
theorem C10_markAllAsRead_atomic (t : String) (s : HookState) :
    markAllAsRead false t s = s
    ∧ (∀ n ∈ (markAllAsRead true t s).notifications,
        n.is_read = true ∧ n.read_at = some t)
    ∧ (markAllAsRead true t s).unreadCount = 0 := by
  refine ⟨rfl, ?_, rfl⟩
  intro n hn
  simp [markAllAsRead] at hn
  obtain ⟨m, hm, rfl⟩ := hn
  exact ⟨rfl, rfl⟩

/-- C10 witness: the one-unread-row state under a failing and a succeeding
markAllAsRead at timestamp t0. -/
theorem C10_markAllAsRead_atomic_witness :
    markAllAsRead false "t0" exState1 = exState1
    ∧ (exMarkedT0.is_read = true ∧ exMarkedT0.read_at = some "t0")
    ∧ (markAllAsRead true "t0" exState1).unreadCount = 0 :=
  ⟨(C10_markAllAsRead_atomic "t0" exState1).1,
   (C10_markAllAsRead_atomic "t0" exState1).2.1 exMarkedT0 (by decide),
   (C10_markAllAsRead_atomic "t0" exState1).2.2⟩

end LetsTrade
